import Mathlib

/-!
Shallow embedding of `check_gradle9_compat.py`: the rule scanner
(`scan_text_for_rules` over the fixed table `RULES`), wrapper-version
extraction (`WRAPPER_RE`), plugin-manifest parsing (`parse_plugins`),
best-effort file reading (`read_text`) and the exit-code logic of `main`.

The regular expressions of the source are hand-compiled to deterministic
matchers on `List Char`.  This is exact for these patterns: every
quantifier appearing in them (`\s+`, `\s*`, `\d+`, `[0-9.]+`, `.*`) is
immediately followed by a character that the quantified class cannot
match, so the greedy backtracking semantics of Python's `re.search`
collapses to "consume the maximal run, then demand the next literal".
The `.*` of `WRAPPER_RE` (which cannot cross a newline) makes the
rightmost candidate position on the line win, and `re.search` itself
returns the leftmost start position at which the whole pattern matches.
The `\s` class is modelled by its ASCII part, which is the set relevant
to every build file scanned.  Capture groups that the scanner never
reads (the `(^|\s)` and `(\s|\()` groups of the configuration-keyword
rules) are modelled as an empty group list.
-/

namespace Gradle9

/-- ASCII whitespace: the characters matched by the `\s` class of the
source patterns. -/
def isPySpace (c : Char) : Bool :=
  c = ' ' || c = '\t' || c = '\n' || c = '\x0b' || c = '\x0c' || c = '\r'

/-- Match a literal character sequence, returning the rest of the text. -/
def dropLit : List Char → List Char → Option (List Char)
  | [], cs => some cs
  | _ :: _, [] => none
  | l :: ls, c :: cs => if c = l then dropLit ls cs else none

/-- Consume the maximal whitespace run: the `\s*` quantifier. -/
def dropWs : List Char → List Char
  | [] => []
  | c :: cs => if isPySpace c then dropWs cs else c :: cs

/-- Consume a nonempty maximal whitespace run: the `\s+` quantifier. -/
def ws1 : List Char → Option (List Char)
  | [] => none
  | c :: cs => if isPySpace c then some (dropWs cs) else none

/-- The character class `['\"]` of the source patterns (an apostrophe,
code point 39, or a double quote, code point 34). -/
def quoteChar (c : Char) : Bool :=
  c = Char.ofNat 39 || c = Char.ofNat 34

/-- Match one quote character. -/
def dropQuote : List Char → Option (List Char)
  | [] => none
  | c :: cs => if quoteChar c then some cs else none

/-- Take the maximal run of decimal digits: the `\d+` quantifier. -/
def takeDigits : List Char → List Char × List Char
  | [] => ([], [])
  | c :: cs =>
    if c.isDigit then
      let p := takeDigits cs
      (c :: p.1, p.2)
    else ([], c :: cs)

/-- Match a nonempty maximal digit run, returning it and the rest. -/
def digits1 (cs : List Char) : Option (List Char × List Char) :=
  match takeDigits cs with
  | ([], _) => none
  | p => some p

/-- Numeric value of a digit string, as computed by Python `int`. -/
def digitsToNat (ds : List Char) : Nat :=
  ds.foldl (fun n c => 10 * n + (c.toNat - 48)) 0

/-- Leftmost search: try the matcher at every start position in order,
as `re.search` does. -/
def searchFrom {α : Type} (f : List Char → Option α) : List Char → Option α
  | [] => f []
  | c :: cs =>
    match f (c :: cs) with
    | some r => some r
    | none => searchFrom f cs

/-- Matcher for `apply\s+plugin:\s*['\"]maven['\"]` at one position. -/
def mavenAt (cs : List Char) : Option (List (List Char)) :=
  (dropLit "apply".toList cs).bind fun r1 =>
  (ws1 r1).bind fun r2 =>
  (dropLit "plugin:".toList r2).bind fun r3 =>
  (dropQuote (dropWs r3)).bind fun r4 =>
  (dropLit "maven".toList r4).bind fun r5 =>
  (dropQuote r5).map fun _ => []

def maven_search (cs : List Char) : Option (List (List Char)) :=
  searchFrom mavenAt cs

/-- Matcher for `kw(\s|\()` at one position, the tail of the pattern
`(^|\s)kw(\s|\()` shared by the two configuration-keyword rules. -/
def kwAt (kw : List Char) (cs : List Char) : Bool :=
  match dropLit kw cs with
  | none => false
  | some [] => false
  | some (c :: _) => isPySpace c || c = '('

/-- Search for `(^|\s)kw(\s|\()` under `re.MULTILINE`; the Boolean
argument records whether `^` matches at the current position (start of
the string or just after a newline). -/
def searchConfig (kw : List Char) : Bool → List Char → Bool
  | _, [] => false
  | caret, c :: cs =>
    (caret && kwAt kw (c :: cs)) || (isPySpace c && kwAt kw cs) ||
      searchConfig kw (c = '\n') cs

def compile_search (cs : List Char) : Option (List (List Char)) :=
  if searchConfig "compile".toList true cs then some [] else none

def provided_search (cs : List Char) : Option (List (List Char)) :=
  if searchConfig "provided".toList true cs then some [] else none

/-- Matcher for `jcenter\s*\(` at one position. -/
def jcenterAt (cs : List Char) : Option (List (List Char)) :=
  (dropLit "jcenter".toList cs).bind fun r1 =>
  match dropWs r1 with
  | c :: _ => if c = '(' then some [] else none
  | [] => none

def jcenter_search (cs : List Char) : Option (List (List Char)) :=
  searchFrom jcenterAt cs

/-- Matcher for the literal `kotlin-android-extensions`. -/
def kaeAt (cs : List Char) : Option (List (List Char)) :=
  (dropLit "kotlin-android-extensions".toList cs).map fun _ => []

def kae_search (cs : List Char) : Option (List (List Char)) :=
  searchFrom kaeAt cs

/-- Matcher for `classpath\s+['\"]com\.android\.tools\.build:gradle:(\d+)\.`
at one position, returning the captured major-version digits. -/
def agpAt (cs : List Char) : Option (List (List Char)) :=
  (dropLit "classpath".toList cs).bind fun r1 =>
  (ws1 r1).bind fun r2 =>
  (dropQuote r2).bind fun r3 =>
  (dropLit "com.android.tools.build:gradle:".toList r3).bind fun r4 =>
  (digits1 r4).bind fun p =>
  match p.2 with
  | c :: _ => if c = '.' then some [p.1] else none
  | [] => none

def agp_search (cs : List Char) : Option (List (List Char)) :=
  searchFrom agpAt cs

/-- Matcher for
`classpath\s+['\"]org\.jetbrains\.kotlin:kotlin-gradle-plugin:(\d+)\.(\d+)`
at one position, returning the captured major and minor digits. -/
def kotlinAt (cs : List Char) : Option (List (List Char)) :=
  (dropLit "classpath".toList cs).bind fun r1 =>
  (ws1 r1).bind fun r2 =>
  (dropQuote r2).bind fun r3 =>
  (dropLit "org.jetbrains.kotlin:kotlin-gradle-plugin:".toList r3).bind fun r4 =>
  (digits1 r4).bind fun p =>
  (dropLit ".".toList p.2).bind fun r5 =>
  (digits1 r5).map fun q => [p.1, q.1]

def kotlin_search (cs : List Char) : Option (List (List Char)) :=
  searchFrom kotlinAt cs

/-- Matcher for `\s*buildscript\s*\{` at one position (the part of the
pattern after `^`). -/
def buildscriptAt (cs : List Char) : Option (List (List Char)) :=
  (dropLit "buildscript".toList (dropWs cs)).bind fun r1 =>
  match dropWs r1 with
  | c :: _ => if c = Char.ofNat 123 then some [] else none
  | [] => none

/-- Search for a pattern anchored by `^` under `re.MULTILINE`: the
matcher is tried only at the start of the string and just after each
newline. -/
def searchCaret {α : Type} (f : List Char → Option α) : Bool → List Char → Option α
  | caret, [] => if caret then f [] else none
  | caret, c :: cs =>
    match (if caret then f (c :: cs) else none) with
    | some r => some r
    | none => searchCaret f (c = '\n') cs

def buildscript_search (cs : List Char) : Option (List (List Char)) :=
  searchCaret buildscriptAt true cs

/-- One entry of the rule table `(title, pattern, advice, sev)`; the
compiled pattern is represented by its search function, which returns
the capture groups of the leftmost match. -/
structure Rule where
  title : String
  search : List Char → Option (List (List Char))
  advice : String
  sev : String

def mavenRule : Rule :=
  ⟨"Deprecated \x27maven\x27 plugin", maven_search,
   "Replace with \x27maven-publish\x27.", "HIGH"⟩

def compileRule : Rule :=
  ⟨"Deprecated \x27compile\x27 configuration", compile_search,
   "Use \x27implementation\x27 or \x27api\x27.", "HIGH"⟩

def providedRule : Rule :=
  ⟨"Deprecated \x27provided\x27 configuration", provided_search,
   "Use \x27compileOnly\x27.", "HIGH"⟩

def jcenterRule : Rule :=
  ⟨"JCenter repository", jcenter_search,
   "Remove jcenter(); use mavenCentral() + google().", "HIGH"⟩

def kaeRule : Rule :=
  ⟨"Kotlin Android Extensions plugin", kae_search,
   "Removed; switch to ViewBinding / kotlin-parcelize.", "HIGH"⟩

def agpRule : Rule :=
  ⟨"Old AGP classpath (<8)", agp_search,
   "Upgrade AGP to 8+ (Gradle 9 readiness).", "HIGH"⟩

def kotlinRule : Rule :=
  ⟨"Old Kotlin plugin (<1.9)", kotlin_search,
   "Consider Kotlin 1.9+ depending on AGP.", "WARN"⟩

def buildscriptRule : Rule :=
  ⟨"Legacy buildscript\x7b\x7d style", buildscript_search,
   "Not wrong, but modern projects prefer plugins\x7b\x7d / version catalogs.", "INFO"⟩

/-- The fixed rule table, in declaration order. -/
def RULES : List Rule :=
  [mavenRule, compileRule, providedRule, jcenterRule,
   kaeRule, agpRule, kotlinRule, buildscriptRule]

/-- Python `str.startswith`. -/
def startswith (pre s : String) : Bool :=
  pre.toList.isPrefixOf s.toList

/-- Whether a rule produces a finding on the text: its pattern matches
and the version-threshold checks do not skip the match (`continue`). -/
def rule_fires (cs : List Char) (r : Rule) : Bool :=
  match r.search cs with
  | none => false
  | some gs =>
    if startswith "Old AGP classpath" r.title then
      if 8 ≤ digitsToNat (gs.getD 0 []) then false else true
    else if startswith "Old Kotlin plugin" r.title then
      if 1 < digitsToNat (gs.getD 0 []) ∨
          (digitsToNat (gs.getD 0 []) = 1 ∧ 9 ≤ digitsToNat (gs.getD 1 [])) then
        false
      else true
    else true

/-- The contribution of one rule to the scan result. -/
def apply_rule (cs : List Char) (r : Rule) : Option (String × String × String) :=
  if rule_fires cs r then some (r.sev, r.title, r.advice) else none

/-- The rule scanner: findings `(sev, title, advice)` accumulated over
the rule table in declaration order. -/
def scan_text_for_rules (text : String) : List (String × String × String) :=
  RULES.filterMap (apply_rule text.toList)

/-- The character class `[0-9.]` of `WRAPPER_RE`. -/
def verChar (c : Char) : Bool := c.isDigit || c = '.'

/-- Take the maximal run of `[0-9.]` characters. -/
def takeVer : List Char → List Char × List Char
  | [] => ([], [])
  | c :: cs =>
    if verChar c then
      let p := takeVer cs
      (c :: p.1, p.2)
    else ([], c :: cs)

/-- Matcher for `gradle-([0-9.]+)-` at one position, returning the
captured version characters. -/
def gradleVerAt (cs : List Char) : Option (List Char) :=
  (dropLit "gradle-".toList cs).bind fun r =>
  match takeVer r with
  | ([], _) => none
  | (d, c :: _) => if c = '-' then some d else none
  | (_, []) => none

/-- Rightmost match of `gradle-([0-9.]+)-` in the rest of the current
line: the greedy `.*` of `WRAPPER_RE`, which cannot cross a newline,
hands the capture to the last matching position on the line. -/
def lastVerOnLine : List Char → Option (List Char)
  | [] => none
  | c :: cs =>
    if c = '\n' then none
    else
      match lastVerOnLine cs with
      | some d => some d
      | none => gradleVerAt (c :: cs)

/-- Matcher for `distributionUrl=.*gradle-([0-9.]+)-` at one position. -/
def wrapperAt (cs : List Char) : Option (List Char) :=
  (dropLit "distributionUrl=".toList cs).bind fun r => lastVerOnLine r

/-- Search of `WRAPPER_RE`, returning group 1 of the leftmost match. -/
def wrapper_search (cs : List Char) : Option (List Char) :=
  searchFrom wrapperAt cs

/-- Lines 223-228 of `main`: the wrapper version extracted from the
content of `gradle-wrapper.properties`, when present. -/
def extract_wrapper_version (content : String) : Option String :=
  (wrapper_search content.toList).map String.mk

/-- Best-effort file read (`read_text`): the result of the underlying
read is passed as an `Except`; any raised exception yields `""`. -/
def read_text {ε : Type} (r : Except ε String) : String :=
  match r with
  | Except.ok s => s
  | Except.error _ => ""

/-- Values of the JSON data model, for the plugin manifest. -/
inductive Json where
  | null
  | bool (b : Bool)
  | num (n : Int)
  | str (s : String)
  | arr (elems : List Json)
  | obj (fields : List (String × Json))

/-- Exceptions that the body of `parse_plugins` can raise outside its
`try` block. -/
inductive PyError where
  | attributeError
  | typeError
deriving DecidableEq

/-- Lookup of a key in a JSON object. -/
def jsonLookup : List (String × Json) → String → Option Json
  | [], _ => none
  | (k, v) :: t, key => if k = key then some v else jsonLookup t key

/-- Python `d.get(key, dflt)`: raises `AttributeError` unless `d` is a
dict. -/
def pyGet (v : Json) (key : String) (dflt : Json) : Except PyError Json :=
  match v with
  | Json.obj kvs =>
    Except.ok (match jsonLookup kvs key with
      | some x => x
      | none => dflt)
  | _ => Except.error PyError.attributeError

/-- Python truthiness of a JSON value. -/
def pyTruthy : Json → Bool
  | Json.null => false
  | Json.bool b => b
  | Json.num n => n != 0
  | Json.str s => s != ""
  | Json.arr xs => !xs.isEmpty
  | Json.obj kvs => !kvs.isEmpty

/-- Python `a or b`. -/
def pyOr (a b : Json) : Json :=
  if pyTruthy a then a else b

/-- Python `for p in v`: lists, strings and dicts are iterable, other
values raise `TypeError`. -/
def pyIter : Json → Except PyError (List Json)
  | Json.arr xs => Except.ok xs
  | Json.str s => Except.ok (s.toList.map fun c => Json.str (String.mk [c]))
  | Json.obj kvs => Except.ok (kvs.map fun kv => Json.str kv.1)
  | _ => Except.error PyError.typeError

/-- Lines 156-173, `parse_plugins`: `file_exists` models
`f.exists()` and `parsed` the outcome of `json.loads(read_text(f))`
(`none` when it raised, which the `try` block catches).  Everything
after the `try` block runs unprotected, so `pyGet`/`pyIter` failures
propagate as errors. -/
def parse_plugins (file_exists : Bool) (parsed : Option Json) :
    Except PyError (List (Json × Json)) :=
  if file_exists = false then Except.ok []
  else
    match parsed with
    | none => Except.ok []
    | some data => do
      let a ← pyGet data "plugins" (Json.obj [])
      let b ← pyGet a "android" (Json.arr [])
      let plugins := pyOr b (Json.arr [])
      let items ← pyIter plugins
      let out ← items.foldlM (fun acc p => do
        let name ← pyGet p "name" Json.null
        let path ← pyGet p "path" Json.null
        if pyTruthy name && pyTruthy path then
          pure (acc ++ [(name, path)])
        else
          pure acc) ([] : List (Json × Json))
      pure out

/-- The finding produced by the maven-plugin rule. -/
def mavenFinding : String × String × String :=
  ("HIGH", "Deprecated \x27maven\x27 plugin", "Replace with \x27maven-publish\x27.")

/-- The finding produced by the compile-configuration rule. -/
def compileFinding : String × String × String :=
  ("HIGH", "Deprecated \x27compile\x27 configuration", "Use \x27implementation\x27 or \x27api\x27.")

/-- The finding produced by the jcenter rule. -/
def jcenterFinding : String × String × String :=
  ("HIGH", "JCenter repository", "Remove jcenter(); use mavenCentral() + google().")

/-- The finding produced by the AGP-classpath rule. -/
def agpFinding : String × String × String :=
  ("HIGH", "Old AGP classpath (<8)", "Upgrade AGP to 8+ (Gradle 9 readiness).")

/-- The finding produced by the Kotlin-plugin rule. -/
def kotlinFinding : String × String × String :=
  ("WARN", "Old Kotlin plugin (<1.9)", "Consider Kotlin 1.9+ depending on AGP.")

/-! Helper lemmas about the scanner. -/

lemma apply_rule_some_iff {cs : List Char} {r : Rule} {f : String × String × String} :
    apply_rule cs r = some f ↔
      rule_fires cs r = true ∧ f = (r.sev, r.title, r.advice) := by
  unfold apply_rule
  by_cases h : rule_fires cs r = true
  · simp [h, eq_comm]
  · simp [h]

lemma mem_scan {f : String × String × String} {t : String} :
    f ∈ scan_text_for_rules t ↔
      ∃ r, r ∈ RULES ∧ rule_fires t.toList r = true ∧
        f = (r.sev, r.title, r.advice) := by
  unfold scan_text_for_rules
  rw [List.mem_filterMap]
  constructor
  · rintro ⟨r, hr, ha⟩
    exact ⟨r, hr, (apply_rule_some_iff.mp ha).1, (apply_rule_some_iff.mp ha).2⟩
  · rintro ⟨r, hr, hf, he⟩
    exact ⟨r, hr, apply_rule_some_iff.mpr ⟨hf, he⟩⟩

lemma filterMap_map_sublist {α β γ : Type} (g : α → Option β) (f : β → γ) (h : α → γ)
    (H : ∀ a b, g a = some b → f b = h a) :
    ∀ l : List α, ((l.filterMap g).map f).Sublist (l.map h)
  | [] => by simp
  | a :: l => by
    cases hga : g a with
    | none =>
      simp only [List.filterMap_cons, hga, List.map_cons]
      exact (filterMap_map_sublist g f h H l).cons (h a)
    | some b =>
      simp only [List.filterMap_cons, hga, List.map_cons]
      rw [H a b hga]
      exact (filterMap_map_sublist g f h H l).cons₂ (h a)

lemma scan_titles_sublist (t : String) :
    ((scan_text_for_rules t).map (fun f => f.2.1)).Sublist (RULES.map Rule.title) := by
  unfold scan_text_for_rules
  refine filterMap_map_sublist _ _ _ ?_ RULES
  intro r f h
  rw [(apply_rule_some_iff.mp h).2]

/-- Claim C1: for every text, the scanner lists its findings in
rule-declaration order of the fixed table (the sequence of titles is a
sublist of the table's title sequence); in particular, a text with a
jcenter() call before a legacy compile-configuration usage still yields
the compile finding first, matching the table order. -/
theorem claim_C1_rule_declaration_order :
    (∀ text : String,
      ((scan_text_for_rules text).map (fun f => f.2.1)).Sublist (RULES.map Rule.title))
    ∧ scan_text_for_rules "jcenter()\n compile x" = [compileFinding, jcenterFinding] :=
  ⟨scan_titles_sublist, by decide⟩

/-- Claim C2: each rule contributes at most one finding per scanned text
(each title occurs at most once in the result), and a text containing
the legacy-maven-plugin pattern twice still yields exactly one HIGH
finding with that rule's title. -/
theorem claim_C2_at_most_one_finding_per_rule :
    (∀ (text τ : String),
      ((scan_text_for_rules text).map (fun f => f.2.1)).count τ ≤ 1)
    ∧ scan_text_for_rules "apply plugin: \x27maven\x27\napply plugin: \x27maven\x27" =
        [mavenFinding] := by
  constructor
  · intro text τ
    have h1 := (scan_titles_sublist text).count_le τ
    have h2 : (RULES.map Rule.title).count τ ≤ 1 := by
      have hn : (RULES.map Rule.title).Nodup := by decide
      exact List.nodup_iff_count_le_one.mp hn τ
    omega
  · decide

lemma rule_fires_of_search_none {cs : List Char} {r : Rule} (h : r.search cs = none) :
    rule_fires cs r = false := by
  simp [rule_fires, h]

lemma rule_fires_agp {cs : List Char} {d : List Char} (h : agp_search cs = some [d]) :
    (rule_fires cs agpRule = true ↔ digitsToNat d < 8) := by
  have hs : agpRule.search cs = some [d] := h
  unfold rule_fires
  rw [hs]
  have h1 : startswith "Old AGP classpath" agpRule.title = true := by decide
  simp only [h1, List.getD_cons_zero, if_true]
  split
  · next hc =>
    have hn : ¬ digitsToNat d < 8 := by omega
    simp [hn]
  · next hc =>
    have hn : digitsToNat d < 8 := by omega
    simp [hn]

lemma rule_fires_kotlin {cs : List Char} {M m : List Char}
    (h : kotlin_search cs = some [M, m]) :
    (rule_fires cs kotlinRule = true ↔
      (digitsToNat M < 1 ∨ (digitsToNat M = 1 ∧ digitsToNat m < 9))) := by
  have hs : kotlinRule.search cs = some [M, m] := h
  unfold rule_fires
  rw [hs]
  have h1 : startswith "Old AGP classpath" kotlinRule.title = false := by decide
  have h2 : startswith "Old Kotlin plugin" kotlinRule.title = true := by decide
  simp [h1, h2]
  omega

lemma agp_gate_iff (text : String) (d : List Char)
    (h : agp_search text.toList = some [d]) :
    agpFinding ∈ scan_text_for_rules text ↔ digitsToNat d < 8 := by
  rw [mem_scan]
  constructor
  · rintro ⟨r, hr, hf, he⟩
    have hr8 : r = mavenRule ∨ r = compileRule ∨ r = providedRule ∨ r = jcenterRule ∨
        r = kaeRule ∨ r = agpRule ∨ r = kotlinRule ∨ r = buildscriptRule := by
      simpa [RULES] using hr
    rcases hr8 with rfl|rfl|rfl|rfl|rfl|rfl|rfl|rfl
    · exact absurd he (by decide)
    · exact absurd he (by decide)
    · exact absurd he (by decide)
    · exact absurd he (by decide)
    · exact absurd he (by decide)
    · exact (rule_fires_agp h).mp hf
    · exact absurd he (by decide)
    · exact absurd he (by decide)
  · intro hlt
    exact ⟨agpRule, by simp [RULES], (rule_fires_agp h).mpr hlt, by decide⟩

lemma kotlin_gate_iff (text : String) (M m : List Char)
    (h : kotlin_search text.toList = some [M, m]) :
    kotlinFinding ∈ scan_text_for_rules text ↔
      (digitsToNat M < 1 ∨ (digitsToNat M = 1 ∧ digitsToNat m < 9)) := by
  rw [mem_scan]
  constructor
  · rintro ⟨r, hr, hf, he⟩
    have hr8 : r = mavenRule ∨ r = compileRule ∨ r = providedRule ∨ r = jcenterRule ∨
        r = kaeRule ∨ r = agpRule ∨ r = kotlinRule ∨ r = buildscriptRule := by
      simpa [RULES] using hr
    rcases hr8 with rfl|rfl|rfl|rfl|rfl|rfl|rfl|rfl
    · exact absurd he (by decide)
    · exact absurd he (by decide)
    · exact absurd he (by decide)
    · exact absurd he (by decide)
    · exact absurd he (by decide)
    · exact absurd he (by decide)
    · exact (rule_fires_kotlin h).mp hf
    · exact absurd he (by decide)
  · intro hlt
    exact ⟨kotlinRule, by simp [RULES], (rule_fires_kotlin h).mpr hlt, by decide⟩

/-- Claim C3: when the first match of the AGP-classpath pattern captures
the digit string d, the AGP rule yields its HIGH finding if and only if
the numeric value of d is below 8. -/
theorem claim_C3_agp_version_gate (text : String) (d : List Char)
    (h : agp_search text.toList = some [d]) :
    agpFinding ∈ scan_text_for_rules text ↔ digitsToNat d < 8 :=
  agp_gate_iff text d h

/-- Witness for claim C3: a captured major of 7 yields the finding;
captured majors 8, 9 and the multi-digit 10 yield none. -/
theorem claim_C3_witness :
    (agpFinding ∈ scan_text_for_rules
      "classpath \x27com.android.tools.build:gradle:7.0\x27")
    ∧ (agpFinding ∉ scan_text_for_rules
      "classpath \x27com.android.tools.build:gradle:8.1\x27")
    ∧ (agpFinding ∉ scan_text_for_rules
      "classpath \x27com.android.tools.build:gradle:9.0\x27")
    ∧ (agpFinding ∉ scan_text_for_rules
      "classpath \x27com.android.tools.build:gradle:10.2\x27") := by
  refine ⟨?_, ?_, ?_, ?_⟩
  · exact (claim_C3_agp_version_gate
      "classpath \x27com.android.tools.build:gradle:7.0\x27" ['7'] rfl).mpr (by decide)
  · intro hmem
    exact absurd ((claim_C3_agp_version_gate
      "classpath \x27com.android.tools.build:gradle:8.1\x27" ['8'] rfl).mp hmem) (by decide)
  · intro hmem
    exact absurd ((claim_C3_agp_version_gate
      "classpath \x27com.android.tools.build:gradle:9.0\x27" ['9'] rfl).mp hmem) (by decide)
  · intro hmem
    exact absurd ((claim_C3_agp_version_gate
      "classpath \x27com.android.tools.build:gradle:10.2\x27" ['1', '0'] rfl).mp hmem)
      (by decide)

/-- Claim C4: when the first match of the Kotlin-plugin pattern captures
digit strings M and m, the Kotlin rule yields its WARN finding if and
only if the pair of their numeric values is lexicographically below
(1, 9). -/
theorem claim_C4_kotlin_version_gate (text : String) (M m : List Char)
    (h : kotlin_search text.toList = some [M, m]) :
    kotlinFinding ∈ scan_text_for_rules text ↔
      (digitsToNat M < 1 ∨ (digitsToNat M = 1 ∧ digitsToNat m < 9)) :=
  kotlin_gate_iff text M m h

/-- Witness for claim C4: captured version 1.8 yields the WARN finding;
1.9 and 2.0 yield none. -/
theorem claim_C4_witness :
    (kotlinFinding ∈ scan_text_for_rules
      "classpath \x27org.jetbrains.kotlin:kotlin-gradle-plugin:1.8\x27")
    ∧ (kotlinFinding ∉ scan_text_for_rules
      "classpath \x27org.jetbrains.kotlin:kotlin-gradle-plugin:1.9\x27")
    ∧ (kotlinFinding ∉ scan_text_for_rules
      "classpath \x27org.jetbrains.kotlin:kotlin-gradle-plugin:2.0\x27") := by
  refine ⟨?_, ?_, ?_⟩
  · exact (claim_C4_kotlin_version_gate
      "classpath \x27org.jetbrains.kotlin:kotlin-gradle-plugin:1.8\x27" ['1'] ['8']
      rfl).mpr (by decide)
  · intro hmem
    exact absurd ((claim_C4_kotlin_version_gate
      "classpath \x27org.jetbrains.kotlin:kotlin-gradle-plugin:1.9\x27" ['1'] ['9']
      rfl).mp hmem) (by decide)
  · intro hmem
    exact absurd ((claim_C4_kotlin_version_gate
      "classpath \x27org.jetbrains.kotlin:kotlin-gradle-plugin:2.0\x27" ['2'] ['0']
      rfl).mp hmem) (by decide)

/-- Claim C10: the version-gated rules inspect only the first match of
their pattern: when the first AGP match captures a major of at least 8
the AGP finding is absent, and when the first Kotlin match captures a
version of at least (1, 9) the Kotlin finding is absent, whatever later
occurrences the text contains. -/
theorem claim_C10_first_match_only :
    (∀ (text : String) (d : List Char), agp_search text.toList = some [d] →
      8 ≤ digitsToNat d → agpFinding ∉ scan_text_for_rules text)
    ∧ (∀ (text : String) (M m : List Char), kotlin_search text.toList = some [M, m] →
      (1 < digitsToNat M ∨ (digitsToNat M = 1 ∧ 9 ≤ digitsToNat m)) →
      kotlinFinding ∉ scan_text_for_rules text) := by
  constructor
  · intro text d h hge hmem
    have := (agp_gate_iff text d h).mp hmem
    omega
  · intro text M m h hge hmem
    have := (kotlin_gate_iff text M m h).mp hmem
    omega

/-- Witness for claim C10: in each text the first match captures a
version at or above the threshold and a later line captures one below
it, yet no finding is produced; the trailing conjuncts check that the
later line alone would match with the low version. -/
theorem claim_C10_witness :
    (agpFinding ∉ scan_text_for_rules
      "classpath \x27com.android.tools.build:gradle:8.1\x27\nclasspath \x27com.android.tools.build:gradle:7.0\x27")
    ∧ (kotlinFinding ∉ scan_text_for_rules
      "classpath \x27org.jetbrains.kotlin:kotlin-gradle-plugin:1.9\x27\nclasspath \x27org.jetbrains.kotlin:kotlin-gradle-plugin:1.8\x27")
    ∧ agp_search ("classpath \x27com.android.tools.build:gradle:7.0\x27" : String).toList =
        some [['7']]
    ∧ kotlin_search
        ("classpath \x27org.jetbrains.kotlin:kotlin-gradle-plugin:1.8\x27" : String).toList =
        some [['1'], ['8']] := by
  refine ⟨?_, ?_, rfl, rfl⟩
  · exact claim_C10_first_match_only.1
      "classpath \x27com.android.tools.build:gradle:8.1\x27\nclasspath \x27com.android.tools.build:gradle:7.0\x27"
      ['8'] rfl (by decide)
  · exact claim_C10_first_match_only.2
      "classpath \x27org.jetbrains.kotlin:kotlin-gradle-plugin:1.9\x27\nclasspath \x27org.jetbrains.kotlin:kotlin-gradle-plugin:1.8\x27"
      ['1'] ['9'] rfl (by decide)

/-! Lemmas showing that no rule matches whitespace-only text. -/

lemma ws_ne {c a : Char} (hc : isPySpace c = true) (ha : isPySpace a = false) :
    c ≠ a := by
  intro e
  subst e
  rw [hc] at ha
  exact Bool.noConfusion ha

lemma dropLit_cons_ws_none (a : Char) (l : List Char) {cs : List Char}
    (ha : isPySpace a = false) (h : ∀ c ∈ cs, isPySpace c = true) :
    dropLit (a :: l) cs = none := by
  cases cs with
  | nil => rfl
  | cons c t =>
    have hc : isPySpace c = true := h c (by simp)
    simp [dropLit, ws_ne hc ha]

lemma dropWs_ws : ∀ cs : List Char, (∀ c ∈ cs, isPySpace c = true) → dropWs cs = []
  | [], _ => rfl
  | c :: t, h => by
    simp [dropWs, h c (by simp), dropWs_ws t (fun x hx => h x (by simp [hx]))]

lemma searchFrom_ws {α : Type} (f : List Char → Option α)
    (hf : ∀ cs, (∀ c ∈ cs, isPySpace c = true) → f cs = none) :
    ∀ cs, (∀ c ∈ cs, isPySpace c = true) → searchFrom f cs = none
  | [], h => by
    rw [searchFrom, hf [] h]
  | c :: t, h => by
    have ht : ∀ x ∈ t, isPySpace x = true := fun x hx => h x (by simp [hx])
    rw [searchFrom, hf _ h]
    exact searchFrom_ws f hf t ht

lemma searchCaret_ws {α : Type} (f : List Char → Option α)
    (hf : ∀ cs, (∀ c ∈ cs, isPySpace c = true) → f cs = none) :
    ∀ (cs : List Char), (∀ c ∈ cs, isPySpace c = true) →
      ∀ caret, searchCaret f caret cs = none
  | [], h, caret => by
    rw [searchCaret, hf [] h]
    simp
  | c :: t, h, caret => by
    have ht : ∀ x ∈ t, isPySpace x = true := fun x hx => h x (by simp [hx])
    rw [searchCaret, hf _ h]
    simp only [ite_self]
    exact searchCaret_ws f hf t ht (decide (c = '\n'))

lemma mavenAt_ws {cs : List Char} (h : ∀ c ∈ cs, isPySpace c = true) :
    mavenAt cs = none := by
  have h1 : dropLit "apply".toList cs = none :=
    dropLit_cons_ws_none 'a' "pply".toList (by decide) h
  unfold mavenAt
  rw [h1]
  rfl

lemma jcenterAt_ws {cs : List Char} (h : ∀ c ∈ cs, isPySpace c = true) :
    jcenterAt cs = none := by
  have h1 : dropLit "jcenter".toList cs = none :=
    dropLit_cons_ws_none 'j' "center".toList (by decide) h
  unfold jcenterAt
  rw [h1]
  rfl

lemma kaeAt_ws {cs : List Char} (h : ∀ c ∈ cs, isPySpace c = true) :
    kaeAt cs = none := by
  have h1 : dropLit "kotlin-android-extensions".toList cs = none :=
    dropLit_cons_ws_none 'k' "otlin-android-extensions".toList (by decide) h
  unfold kaeAt
  rw [h1]
  rfl

lemma agpAt_ws {cs : List Char} (h : ∀ c ∈ cs, isPySpace c = true) :
    agpAt cs = none := by
  have h1 : dropLit "classpath".toList cs = none :=
    dropLit_cons_ws_none 'c' "lasspath".toList (by decide) h
  unfold agpAt
  rw [h1]
  rfl

lemma kotlinAt_ws {cs : List Char} (h : ∀ c ∈ cs, isPySpace c = true) :
    kotlinAt cs = none := by
  have h1 : dropLit "classpath".toList cs = none :=
    dropLit_cons_ws_none 'c' "lasspath".toList (by decide) h
  unfold kotlinAt
  rw [h1]
  rfl

lemma buildscriptAt_ws {cs : List Char} (h : ∀ c ∈ cs, isPySpace c = true) :
    buildscriptAt cs = none := by
  have h2 : dropLit "buildscript".toList ([] : List Char) = none := rfl
  unfold buildscriptAt
  rw [dropWs_ws cs h, h2]
  rfl

lemma kwAt_ws (a : Char) (l : List Char) {cs : List Char}
    (ha : isPySpace a = false) (h : ∀ c ∈ cs, isPySpace c = true) :
    kwAt (a :: l) cs = false := by
  unfold kwAt
  rw [dropLit_cons_ws_none a l ha h]

lemma searchConfig_ws (a : Char) (l : List Char) (ha : isPySpace a = false) :
    ∀ cs : List Char, (∀ c ∈ cs, isPySpace c = true) →
      ∀ caret, searchConfig (a :: l) caret cs = false
  | [], _, _ => rfl
  | c :: t, h, caret => by
    have ht : ∀ x ∈ t, isPySpace x = true := fun x hx => h x (by simp [hx])
    rw [searchConfig]
    simp [kwAt_ws a l ha h, kwAt_ws a l ha ht,
      searchConfig_ws a l ha t ht (decide (c = '\n'))]

lemma apply_rule_of_search_none {cs : List Char} {r : Rule}
    (h : r.search cs = none) : apply_rule cs r = none := by
  simp [apply_rule, rule_fires_of_search_none h]

/-- Claim C5: a text consisting only of whitespace characters (the
empty text included) yields no findings from any rule. -/
theorem claim_C5_whitespace_yields_nothing (text : String)
    (h : ∀ c ∈ text.toList, isPySpace c = true) :
    scan_text_for_rules text = [] := by
  have m1 : apply_rule text.toList mavenRule = none := by
    have hs : mavenRule.search text.toList = none :=
      searchFrom_ws mavenAt (fun cs hc => mavenAt_ws hc) text.toList h
    exact apply_rule_of_search_none hs
  have m2 : apply_rule text.toList compileRule = none := by
    have hs : compileRule.search text.toList = none := by
      have hb : searchConfig "compile".toList true text.toList = false :=
        searchConfig_ws 'c' "ompile".toList (by decide) text.toList h true
      show compile_search text.toList = none
      unfold compile_search
      rw [hb]
      rfl
    exact apply_rule_of_search_none hs
  have m3 : apply_rule text.toList providedRule = none := by
    have hs : providedRule.search text.toList = none := by
      have hb : searchConfig "provided".toList true text.toList = false :=
        searchConfig_ws 'p' "rovided".toList (by decide) text.toList h true
      show provided_search text.toList = none
      unfold provided_search
      rw [hb]
      rfl
    exact apply_rule_of_search_none hs
  have m4 : apply_rule text.toList jcenterRule = none := by
    have hs : jcenterRule.search text.toList = none :=
      searchFrom_ws jcenterAt (fun cs hc => jcenterAt_ws hc) text.toList h
    exact apply_rule_of_search_none hs
  have m5 : apply_rule text.toList kaeRule = none := by
    have hs : kaeRule.search text.toList = none :=
      searchFrom_ws kaeAt (fun cs hc => kaeAt_ws hc) text.toList h
    exact apply_rule_of_search_none hs
  have m6 : apply_rule text.toList agpRule = none := by
    have hs : agpRule.search text.toList = none :=
      searchFrom_ws agpAt (fun cs hc => agpAt_ws hc) text.toList h
    exact apply_rule_of_search_none hs
  have m7 : apply_rule text.toList kotlinRule = none := by
    have hs : kotlinRule.search text.toList = none :=
      searchFrom_ws kotlinAt (fun cs hc => kotlinAt_ws hc) text.toList h
    exact apply_rule_of_search_none hs
  have m8 : apply_rule text.toList buildscriptRule = none := by
    have hs : buildscriptRule.search text.toList = none :=
      searchCaret_ws buildscriptAt (fun cs hc => buildscriptAt_ws hc) text.toList h true
    exact apply_rule_of_search_none hs
  simp only [scan_text_for_rules, RULES, List.filterMap_cons, m1, m2, m3, m4, m5, m6,
    m7, m8, List.filterMap_nil]

/-- Witness for claim C5: a concrete whitespace-only text scans clean. -/
theorem claim_C5_witness :
    (∀ c ∈ ("  \n\t \r " : String).toList, isPySpace c = true)
    ∧ scan_text_for_rules "  \n\t \r " = [] :=
  ⟨by decide, claim_C5_whitespace_yields_nothing "  \n\t \r " (by decide)⟩

/-! Lemmas for the wrapper-version extraction. -/

lemma dropLit_eq_append : ∀ (l cs r : List Char), dropLit l cs = some r → cs = l ++ r
  | [], cs, r, h => by
    rw [dropLit] at h
    rw [List.nil_append, Option.some_inj.mp h]
  | a :: l, [], r, h => by
    rw [dropLit] at h
    exact Option.noConfusion h
  | a :: l, c :: cs, r, h => by
    rw [dropLit] at h
    split at h
    · next hc =>
      rw [List.cons_append, ← hc]
      exact congrArg _ (dropLit_eq_append l cs r h)
    · exact Option.noConfusion h

lemma searchFrom_some {α : Type} (f : List Char → Option α) :
    ∀ (cs : List Char) (a : α), searchFrom f cs = some a →
      ∃ cs', cs' <:+ cs ∧ f cs' = some a
  | [], a, h => ⟨[], List.suffix_rfl, by rwa [searchFrom] at h⟩
  | c :: cs, a, h => by
    cases hf : f (c :: cs) with
    | some r =>
      rw [searchFrom, hf] at h
      exact ⟨c :: cs, List.suffix_rfl, hf.trans h⟩
    | none =>
      rw [searchFrom, hf] at h
      obtain ⟨cs', hsuf, hf'⟩ := searchFrom_some f cs a h
      exact ⟨cs', hsuf.trans (List.suffix_cons c cs), hf'⟩

lemma wrapper_search_none {cs : List Char}
    (h : ¬ ("distributionUrl=".toList <:+: cs)) : wrapper_search cs = none := by
  cases hw : wrapper_search cs with
  | none => rfl
  | some d =>
    exfalso
    obtain ⟨cs', hsuf, hat⟩ := searchFrom_some wrapperAt cs d hw
    unfold wrapperAt at hat
    cases hd : dropLit "distributionUrl=".toList cs' with
    | none =>
      rw [hd] at hat
      exact Option.noConfusion hat
    | some r =>
      have he : cs' = "distributionUrl=".toList ++ r := dropLit_eq_append _ _ _ hd
      obtain ⟨u, hu⟩ := hsuf
      exact h ⟨u, r, by rw [← hu, he, List.append_assoc]⟩

/-- Claim C6: wrapper-version extraction returns the captured version of
the first match of the distributionUrl pattern, and nothing when the
content has no match (in particular when it has no distributionUrl line
at all); the sample wrapper content extracts version 8.10. -/
theorem claim_C6_wrapper_version_extraction :
    (∀ content : String, ¬ ("distributionUrl=".toList <:+: content.toList) →
      extract_wrapper_version content = none)
    ∧ extract_wrapper_version "distributionUrl=https\\://x/gradle-8.10-bin.zip" =
        some "8.10"
    ∧ extract_wrapper_version "apiUrl=https://x/other.zip" = none := by
  refine ⟨?_, by decide, by decide⟩
  intro content hinf
  unfold extract_wrapper_version
  rw [wrapper_search_none hinf]
  rfl

/-- Witness for claim C6: concrete content with no distributionUrl line
extracts nothing. -/
theorem claim_C6_witness :
    ¬ ("distributionUrl=".toList <:+: ("rootProject.name = \x27app\x27" : String).toList)
    ∧ extract_wrapper_version "rootProject.name = \x27app\x27" = none :=
  ⟨by decide,
   claim_C6_wrapper_version_extraction.1 "rootProject.name = \x27app\x27" (by decide)⟩

/-! Lemmas for the exit-code computation. -/

/-- Claim C8: reading a file is best-effort: a read that raises any
exception yields the empty string, and scanning that empty text yields
zero findings. -/
theorem claim_C8_read_best_effort (ε : Type) (e : ε) :
    read_text (Except.error e) = ""
    ∧ scan_text_for_rules (read_text (Except.error e)) = [] :=
  ⟨rfl, (by decide : scan_text_for_rules "" = [])⟩

/-- Counterexample to claim C9: a manifest whose content parses to a
JSON value lacking the expected plugins/android structure (here a JSON
array at top level) makes parse_plugins raise an AttributeError instead
of returning the empty plugin list. -/
theorem claim_C9_counterexample :
    parse_plugins true (some (Json.arr [])) = Except.error PyError.attributeError
    ∧ parse_plugins true (some (Json.arr [])) ≠ Except.ok [] := by
  refine ⟨rfl, ?_⟩
  intro h
  rw [show parse_plugins true (some (Json.arr [])) =
    Except.error PyError.attributeError from rfl] at h
  exact Except.noConfusion h

/-- Claim C9 as amended: parse_plugins returns the empty plugin list
when the manifest file is absent, when its content is unparseable as
JSON, or when it parses to an object merely lacking the plugins/android
keys; but a parsed value that is not an object at the traversed points
raises an error instead of returning the empty list. -/
theorem claim_C9_amended_parse_plugins :
    (∀ parsed : Option Json, parse_plugins false parsed = Except.ok [])
    ∧ parse_plugins true none = Except.ok []
    ∧ parse_plugins true (some (Json.obj [])) = Except.ok []
    ∧ parse_plugins true (some (Json.obj [("plugins", Json.obj [])])) = Except.ok []
    ∧ parse_plugins true (some (Json.obj [("plugins",
        Json.obj [("android", Json.arr [Json.obj [("name", Json.str "camera"),
          ("path", Json.str "/p/camera")]])])])) =
        Except.ok [(Json.str "camera", Json.str "/p/camera")]
    ∧ parse_plugins true (some (Json.arr [])) = Except.error PyError.attributeError :=
  ⟨fun _ => rfl, rfl, rfl, rfl, rfl, rfl⟩

/-- Witness for claim C1: the sublist property at a concrete text. -/
theorem claim_C1_witness :
    ((scan_text_for_rules "jcenter() and compile x").map (fun f => f.2.1)).Sublist
      (RULES.map Rule.title) :=
  claim_C1_rule_declaration_order.1 "jcenter() and compile x"

/-- Witness for claim C2: the count bound at a concrete text and title. -/
theorem claim_C2_witness :
    ((scan_text_for_rules "jcenter() jcenter() jcenter()").map
      (fun f => f.2.1)).count "JCenter repository" ≤ 1 :=
  claim_C2_at_most_one_finding_per_rule.1 "jcenter() jcenter() jcenter()"
    "JCenter repository"

/-- Witness for claim C8: a concrete failed read yields the empty text
and a clean scan. -/
theorem claim_C8_witness :
    read_text (Except.error "permission denied") = ""
    ∧ scan_text_for_rules (read_text (Except.error "permission denied")) = [] :=
  claim_C8_read_best_effort String "permission denied"

/-- Witness for the amended claim C9: an absent manifest yields the
empty plugin list at a concrete parsed value. -/
theorem claim_C9_witness :
    parse_plugins false (some Json.null) = Except.ok [] :=
  claim_C9_amended_parse_plugins.1 (some Json.null)

end Gradle9
